import Mathlib

/-!
# Verification of the fund-data reconciliation engine

Shallow embedding of the validation-and-selective-update subsystem of
`fund_etl_pipeline.py` (class `FundDataETL`) together with theorems about
the comparator, planner, update applicator, date-expansion and
normalization rules.

Modelling conventions:
* Numeric cell values are `Option ℚ` (`none` = SQL NULL / pandas NaN).  The
  Python code computes with IEEE doubles; every comparison and threshold
  computation appearing in the theorems below is exact at the inputs used,
  so rational arithmetic is a faithful model of those evaluations.
* Calendar dates are proleptic-Gregorian ordinals (`Nat`, day 1 =
  0001-01-01, exactly Python's `date.toordinal`), so `+ 1` is "next
  calendar day" just like `timedelta(days=1)`.
* The `fund_data` table (`setup_database`, lines 308-340) is a list of
  rows; SQL `UPDATE ... WHERE` is a conditional map, `DELETE`/`INSERT` are
  filter/append.  The `created_at` bookkeeping column is omitted: none of
  the modelled statements ever reads or updates it.
* A crucial fact about the source: the class defines `update_from_lookback`
  twice (lines 942 and 1323).  Python class semantics make the second
  definition the one that executes; the first (which handles missing
  dates, new-fund inserts, changed-field-only patches, weekend mirroring
  and rollback/re-raise) is unreachable.  The applicator embedded below is
  the second, effective definition.
-/

namespace FundETL

/-- Absolute value as computed by Python's `abs`, written as a conditional
so that concrete evaluations unfold by `simp`/`norm_num`. -/
def qabs (q : ℚ) : ℚ := if q < 0 then -q else q

theorem qabs_eq_abs (q : ℚ) : qabs q = |q| := by
  rcases lt_or_le q 0 with h | h
  · rw [qabs, if_pos h, abs_of_neg h]
  · rw [qabs, if_neg (not_lt.mpr h), abs_of_nonneg h]

/-- The float-noise epsilon of `_compare_dataframes`
(`epsilon = 1e-10`, fund_etl_pipeline.py line 900), modelled exactly. -/
def eps : ℚ := 1 / 10 ^ 10

/-- The four database fields that `_compare_dataframes` can actually
compare: its `column_mapping_reverse` (lines 828-834) maps only these
field names besides `fund_code`; any other configured critical field is
skipped for comparison. -/
inductive Field where
  | share_class_assets
  | portfolio_assets
  | one_day_yield
  | seven_day_yield
deriving DecidableEq, Repr

/-- One entry of a change descriptor's `changed_fields` list (the dicts
appended at lines 890-894, 913-918 and 923-927 of `_compare_dataframes`).
`pctChange = none` models the entries appended without a `pct_change` key:
null mismatches and the zero-to-nonzero branch. -/
structure ChangedField where
  field : Field
  db_value : Option ℚ
  lookback_value : Option ℚ
  pctChange : Option ℚ
deriving DecidableEq, Repr

/-- The per-field comparison of `_compare_dataframes` (lines 879-927):
both null → no entry; exactly one null → entry without percentage (the
null-mismatch branch, line 887); both non-null → skip when
`abs(a - b) < epsilon` (line 903); else if `abs(a) > epsilon` flag exactly
when `abs((b - a) / a * 100) > threshold` (lines 907-918); else if
`abs(b) > epsilon` flag with no percentage (zero-to-nonzero, lines
919-927); else no entry. -/
def compareField (fld : Field) (db_value lookback_value : Option ℚ)
    (thresholdPct : ℚ) : Option ChangedField :=
  match db_value, lookback_value with
  | none, none => none
  | some a, none => some ⟨fld, some a, none, none⟩
  | none, some b => some ⟨fld, none, some b, none⟩
  | some a, some b =>
    if qabs (a - b) < eps then none
    else if eps < qabs a then
      let pct := qabs ((b - a) / a * 100)
      if thresholdPct < pct then some ⟨fld, some a, some b, some pct⟩ else none
    else if eps < qabs b then some ⟨fld, some a, some b, none⟩
    else none

/-- C5: with both values non-null, `|a - b| ≥ ε` and `|a| > ε`, the
comparator flags the field exactly when `|b - a| / |a| * 100` is strictly
greater than the threshold; at stored `100.0` with threshold `5.0`, the
reference values `104.99` and `105.0` are not flagged while `105.01`
is flagged. -/
theorem compareField_threshold_strict (fld : Field) (a b thr : ℚ)
    (hab : eps ≤ |a - b|) (ha : eps < |a|) :
    ((compareField fld (some a) (some b) thr).isSome ↔ |b - a| / |a| * 100 > thr)
    ∧ compareField fld (some 100) (some 104.99) 5 = none
    ∧ (compareField fld (some 100) (some 105.01) 5).isSome = true
    ∧ compareField fld (some 100) (some 105) 5 = none := by
  refine ⟨?_, ?_, ?_, ?_⟩
  · have habs : |(b - a) / a * 100| = |b - a| / |a| * 100 := by
      rw [abs_mul, abs_div, abs_sub_comm]
      norm_num
    simp only [compareField, qabs_eq_abs, if_neg (not_lt.mpr hab), if_pos ha, habs]
    constructor
    · intro h
      by_contra hc
      rw [if_neg (by simpa [gt_iff_lt] using hc)] at h
      simp at h
    · intro h
      rw [if_pos (by simpa [gt_iff_lt] using h)]
      rfl
  · norm_num [compareField, qabs, eps]
  · norm_num [compareField, qabs, eps]
  · norm_num [compareField, qabs, eps]

/-- Closed instantiation of `compareField_threshold_strict` at the
boundary scenario from the spec (stored `100.0`, threshold `5.0`,
reference `104.99`). -/
theorem compareField_threshold_strict_witness :
    ((compareField .share_class_assets (some 100) (some 104.99) 5).isSome
        ↔ |(104.99 : ℚ) - 100| / |(100 : ℚ)| * 100 > 5)
    ∧ compareField .share_class_assets (some 100) (some 104.99) 5 = none
    ∧ (compareField .share_class_assets (some 100) (some 105.01) 5).isSome = true
    ∧ compareField .share_class_assets (some 100) (some 105) 5 = none :=
  compareField_threshold_strict .share_class_assets 100 104.99 5
    (by rw [← qabs_eq_abs]; norm_num [qabs, eps]) (by rw [← qabs_eq_abs]; norm_num [qabs, eps])

/-- C6: a comparison with both values null contributes no entry; a
comparison with exactly one null value always contributes an entry with
no percentage computed, for every threshold. -/
theorem compareField_null_mismatch (fld : Field) (thr : ℚ) :
    compareField fld none none thr = none
    ∧ (∀ a : ℚ, compareField fld (some a) none thr = some ⟨fld, some a, none, none⟩)
    ∧ (∀ b : ℚ, compareField fld none (some b) thr = some ⟨fld, none, some b, none⟩) :=
  ⟨rfl, fun _ => rfl, fun _ => rfl⟩

/-- C7 counterexample: at stored value `a = ε` (so `|a| ≤ ε`) and
reference `b = 3ε/2` (so `|b| > ε`), the claim says the field is always
flagged, but the comparator returns no entry because `|a - b| < ε`
(line 903 treats the values as equal before the zero-to-nonzero branch
is reached). -/
theorem compareField_zero_nonzero_counterexample :
    |eps| ≤ eps ∧ eps < |3 / 2 * eps| ∧
      compareField .share_class_assets (some eps) (some (3 / 2 * eps)) 5 = none := by
  refine ⟨by rw [← qabs_eq_abs]; norm_num [qabs, eps],
    by rw [← qabs_eq_abs]; norm_num [qabs, eps], ?_⟩
  norm_num [compareField, qabs, eps]

/-- C7 amended: with `|a| ≤ ε`, `|b| > ε` and additionally `|a - b| ≥ ε`
(the float-noise guard the claim omitted), the comparator always flags the
field, with no percentage, regardless of the threshold. -/
theorem compareField_zero_to_nonzero (fld : Field) (a b thr : ℚ)
    (ha : |a| ≤ eps) (hb : eps < |b|) (hab : eps ≤ |a - b|) :
    compareField fld (some a) (some b) thr = some ⟨fld, some a, some b, none⟩ := by
  simp only [compareField, qabs_eq_abs, if_neg (not_lt.mpr hab),
    if_neg (not_lt.mpr ha), if_pos hb]

/-- Closed instantiation of `compareField_zero_to_nonzero` at the spec
scenario stored `0.0`, reference `0.0001`, threshold `5.0`. -/
theorem compareField_zero_to_nonzero_witness :
    compareField .share_class_assets (some 0) (some 0.0001) 5 =
      some ⟨.share_class_assets, some 0, some 0.0001, none⟩ :=
  compareField_zero_to_nonzero .share_class_assets 0 0.0001 5
    (by rw [← qabs_eq_abs]; norm_num [qabs, eps])
    (by rw [← qabs_eq_abs]; norm_num [qabs, eps])
    (by rw [← qabs_eq_abs]; norm_num [qabs, eps])

/-- One row of the `fund_data` table (`setup_database`, lines 308-340).
Text columns are `String`, numeric (`REAL`) columns are `Option ℚ`
(`none` = NULL); `created_at` is omitted as explained in the header. -/
structure DbRow where
  date : Nat
  region : String
  fund_code : String
  fund_name : String
  master_class_fund_name : String
  rating : String
  unique_identifier : String
  nasdaq : String
  fund_complex : String
  subcategory : String
  domicile : String
  currency : String
  share_class_assets : Option ℚ
  portfolio_assets : Option ℚ
  one_day_yield : Option ℚ
  one_day_gross_yield : Option ℚ
  seven_day_yield : Option ℚ
  seven_day_gross_yield : Option ℚ
  expense_ratio : Option ℚ
  wam : Option ℚ
  wal : Option ℚ
  transactional_nav : String
  market_nav : String
  daily_liquidity : Option ℚ
  weekly_liquidity : Option ℚ
  fees : String
  gates : String
deriving DecidableEq, Repr

/-- One row of the downloaded 30-day lookback dataset, restricted to the
columns the validation/update paths read: `Date`, `Region` (added by
`download_lookback_file`, line 689), `Fund Code`, `Fund Name`, and the
eight numeric columns named by the column maps at lines 828-834 and
1350-1359 (`Share Class Assets (dly/$mils)`, `Portfolio Assets
(dly/$mils)`, `1-DSY (dly)`, `7-DSY (dly)`, `WAM (dly)`, `WAL (dly)`,
`Daily Liquidity (%)`, `Weekly Liquidity (%)`), with cells modelled as
numeric-or-NaN.  Fund codes are taken already string-cast and stripped,
as `validate_against_lookback` line 723 guarantees. -/
structure LookbackRow where
  date : Nat
  region : String
  fund_code : String
  fund_name : String
  share_class_assets : Option ℚ
  portfolio_assets : Option ℚ
  one_day_yield : Option ℚ
  seven_day_yield : Option ℚ
  wam : Option ℚ
  wal : Option ℚ
  daily_liquidity : Option ℚ
  weekly_liquidity : Option ℚ
deriving DecidableEq, Repr

/-- Projection of a critical field out of a database row. -/
def DbRow.getField (r : DbRow) : Field → Option ℚ
  | .share_class_assets => r.share_class_assets
  | .portfolio_assets => r.portfolio_assets
  | .one_day_yield => r.one_day_yield
  | .seven_day_yield => r.seven_day_yield

/-- Projection of the Excel column mapped to a critical field out of a
lookback row (lines 828-834 and 866-876: the cell is NaN-or-numeric and
is coerced with `pd.to_numeric(..., errors='coerce')`, the identity on
this model). -/
def LookbackRow.getField (r : LookbackRow) : Field → Option ℚ
  | .share_class_assets => r.share_class_assets
  | .portfolio_assets => r.portfolio_assets
  | .one_day_yield => r.one_day_yield
  | .seven_day_yield => r.seven_day_yield

/-- The `column_mapping_reverse` lookup of `_compare_dataframes` (lines
828-834): configured critical-field names other than these four are
absent from the map and therefore skipped (line 865). -/
def columnMappingReverse (dbField : String) : Option Field :=
  if dbField = "share_class_assets" then some .share_class_assets
  else if dbField = "portfolio_assets" then some .portfolio_assets
  else if dbField = "one_day_yield" then some .one_day_yield
  else if dbField = "seven_day_yield" then some .seven_day_yield
  else none

/-- The default `critical_fields` configuration
(`validate_against_lookback` lines 747-748). -/
def defaultCriticalFields : List String :=
  ["share_class_assets", "portfolio_assets", "one_day_yield", "seven_day_yield"]

theorem columnMappingReverse_share_class_assets :
    columnMappingReverse "share_class_assets" = some .share_class_assets := rfl

theorem columnMappingReverse_portfolio_assets :
    columnMappingReverse "portfolio_assets" = some .portfolio_assets := rfl

theorem columnMappingReverse_one_day_yield :
    columnMappingReverse "one_day_yield" = some .one_day_yield := rfl

theorem columnMappingReverse_seven_day_yield :
    columnMappingReverse "seven_day_yield" = some .seven_day_yield := rfl

/-- The per-record field loop of `_compare_dataframes` (lines 860-927):
walk `critical_fields` in order, skip names missing from
`column_mapping_reverse`, and collect the entries produced by
`compareField`. -/
def compareRecord (dbRec : DbRow) (lbRow : LookbackRow)
    (criticalFields : List String) (thresholdPct : ℚ) : List ChangedField :=
  criticalFields.foldr (fun f acc =>
    match columnMappingReverse f with
    | none => acc
    | some fld =>
      match compareField fld (dbRec.getField fld) (lbRow.getField fld) thresholdPct with
      | none => acc
      | some cf => cf :: acc) []

/-- A change descriptor emitted by `_compare_dataframes`: either a
`new_fund` dict (lines 849-855) or a `value_change` dict (lines 931-937).
Each carries the full lookback row, as the source stores `lookback_row`. -/
inductive ChangeRecord where
  | new_fund (fund_code : String) (date : Nat) (lookback_row : LookbackRow)
  | value_change (fund_code : String) (date : Nat)
      (changed_fields : List ChangedField) (lookback_row : LookbackRow)
deriving DecidableEq, Repr

/-- The `fund_code` key of a change descriptor. -/
def ChangeRecord.fund_code : ChangeRecord → String
  | .new_fund c _ _ => c
  | .value_change c _ _ _ => c

/-- The `date` key of a change descriptor. -/
def ChangeRecord.date : ChangeRecord → Nat
  | .new_fund _ d _ => d
  | .value_change _ d _ _ => d

/-- The `changed_fields` list of a change descriptor (`new_fund`
descriptors carry none). -/
def ChangeRecord.changed_fields : ChangeRecord → List ChangedField
  | .new_fund _ _ _ => []
  | .value_change _ _ cfs _ => cfs

/-- The body of `_compare_dataframes` (lines 839-940): for each lookback
row, look up the first database row with the same fund code (`.iloc[0]`,
line 858); a missing row yields a `new_fund` descriptor dated by the
lookback row, otherwise the field loop runs and a non-empty result yields
a `value_change` descriptor dated by the database row. -/
def compareDataframes (db_df : List DbRow) (lookback_df : List LookbackRow)
    (criticalFields : List String) (thresholdPct : ℚ) : List ChangeRecord :=
  lookback_df.foldr (fun lbRow acc =>
    match db_df.find? (fun r => r.fund_code == lbRow.fund_code) with
    | none => .new_fund lbRow.fund_code lbRow.date lbRow :: acc
    | some dbRec =>
      let cfs := compareRecord dbRec lbRow criticalFields thresholdPct
      if cfs.isEmpty then acc
      else .value_change lbRow.fund_code dbRec.date cfs lbRow :: acc) []

/-- The stored table: a list of `fund_data` rows. -/
abbrev Store := List DbRow

/-- The `SELECT COUNT(*) ... WHERE date = ? AND region = ?` probe of
`validate_against_lookback` (lines 734-738). -/
def countRows (store : Store) (region : String) (date : Nat) : Nat :=
  (store.filter (fun r => r.date == date && r.region == region)).length

/-- The `SELECT * ... WHERE date = ? AND region = ?` slice of
`validate_against_lookback` (lines 757-762). -/
def rowsFor (store : Store) (region : String) (date : Nat) : List DbRow :=
  store.filter (fun r => r.date == date && r.region == region)

/-- First-occurrence deduplication, as `pandas.Series.unique` computes
`lookback_dates` at line 726. -/
def uniqueAux (seen : List Nat) : List Nat → List Nat
  | [] => []
  | d :: rest =>
    if d ∈ seen then uniqueAux seen rest else d :: uniqueAux (d :: seen) rest

/-- The distinct dates of the lookback file in first-occurrence order. -/
def uniqueDates (lookback_df : List LookbackRow) : List Nat :=
  uniqueAux [] (lookback_df.map (·.date))

/-- The validation results dictionary built by `validate_against_lookback`
(lines 707-716 and the summary counters updated through lines 740-794). -/
structure ValidationResults where
  missing_dates : List Nat
  changed_records : List ChangeRecord
  total_dates_checked : Nat
  missing_dates_count : Nat
  changed_records_count : Nat
  requires_update : Bool
deriving DecidableEq, Repr

/-- The body of `validate_against_lookback` (lines 703-820): collect the
lookback dates, record the ones with zero stored rows as missing, and for
every other date compare the stored rows against the lookback rows of
that date filtered to the region (lines 768-776).  `requires_update` is
set when a missing date or a change is recorded. -/
def validate_against_lookback (store : Store) (region : String)
    (lookback_df : List LookbackRow) (criticalFields : List String)
    (thresholdPct : ℚ) : ValidationResults :=
  let dates := uniqueDates lookback_df
  let missing := dates.filter (fun d => countRows store region d == 0)
  let changed := (dates.filter (fun d => !(missing.contains d))).flatMap
    (fun d => compareDataframes (rowsFor store region d)
      ((lookback_df.filter (fun r => r.date == d)).filter (fun r => r.region == region))
      criticalFields thresholdPct)
  { missing_dates := missing
    changed_records := changed
    total_dates_checked := dates.length
    missing_dates_count := missing.length
    changed_records_count := changed.length
    requires_update := !missing.isEmpty || !changed.isEmpty }

/-- The Excel-to-database patch of the effective `update_from_lookback`
(second definition, lines 1350-1377): overwrite exactly the eight mapped
columns with the lookback row's raw cell values, leaving every other
column of the row alone. -/
def patchMappedColumns (r : DbRow) (lb : LookbackRow) : DbRow :=
  { r with
    share_class_assets := lb.share_class_assets
    portfolio_assets := lb.portfolio_assets
    one_day_yield := lb.one_day_yield
    seven_day_yield := lb.seven_day_yield
    wam := lb.wam
    wal := lb.wal
    daily_liquidity := lb.daily_liquidity
    weekly_liquidity := lb.weekly_liquidity }

/-- The selective branch of the effective `update_from_lookback` (second
definition, lines 1327-1387): for every change descriptor of any kind,
find the first lookback row with the descriptor's date and fund code
(lines 1340-1343); when found, run `UPDATE fund_data SET <eight mapped
columns> WHERE region = ? AND date = ? AND fund_code = ?` and count one
record updated.  Missing dates, new-fund inserts, weekend mirroring and
normalization do not occur in this code path. -/
def update_from_lookback_selective (store : Store) (region : String)
    (lookback_df : List LookbackRow) (changed_records : List ChangeRecord) :
    Store × Nat :=
  changed_records.foldl (fun acc rec =>
    match lookback_df.find? (fun row =>
        row.date == rec.date && row.fund_code == rec.fund_code) with
    | none => acc
    | some lb =>
      (acc.1.map (fun r =>
        if r.region == region && r.date == rec.date && r.fund_code == rec.fund_code
        then patchMappedColumns r lb else r),
       acc.2 + 1)) (store, 0)

/-- Error-injected run of the effective selective update.  `fails k`
decides whether the `k`-th executed `UPDATE` statement raises.  A raise
propagates to the `except` handler of lines 1453-1455, which logs and
returns `None`; `conn.commit()` (line 1381) is never reached, so the
store visible to any later reader is the original one.  `Except.error`
would model the exception escaping to the caller; the effective code
never produces it. -/
def applyExcAux (fails : Nat → Bool) (store0 : Store) (region : String)
    (lookback_df : List LookbackRow) :
    List ChangeRecord → Store → Nat → Nat → Except Unit (Option Nat) × Store
  | [], st, n, _k => (Except.ok (some n), st)
  | rec :: rest, st, n, k =>
    match lookback_df.find? (fun row =>
        row.date == rec.date && row.fund_code == rec.fund_code) with
    | none => applyExcAux fails store0 region lookback_df rest st n k
    | some lb =>
      if fails k then (Except.ok none, store0)
      else applyExcAux fails store0 region lookback_df rest
        (st.map (fun r =>
          if r.region == region && r.date == rec.date && r.fund_code == rec.fund_code
          then patchMappedColumns r lb else r)) (n + 1) (k + 1)

/-- The effective `update_from_lookback` selective branch under error
injection: result value as seen by the caller, paired with the committed
store. -/
def update_from_lookback_selective_exc (fails : Nat → Bool) (store : Store)
    (region : String) (lookback_df : List LookbackRow)
    (changed_records : List ChangeRecord) : Except Unit (Option Nat) × Store :=
  applyExcAux fails store region lookback_df changed_records store 0 0

/-- Gregorian leap-year test. -/
def isLeap (y : Nat) : Bool := (y % 4 == 0 && y % 100 != 0) || y % 400 == 0

/-- Days in all years strictly before year `y` of the proleptic Gregorian
calendar. -/
def daysBeforeYear (y : Nat) : Nat :=
  365 * (y - 1) + (y - 1) / 4 - (y - 1) / 100 + (y - 1) / 400

/-- Days in the months of year `y` strictly before month `m`. -/
def daysBeforeMonth (y m : Nat) : Nat :=
  [0, 31, 59, 90, 120, 151, 181, 212, 243, 273, 304, 334].getD (m - 1) 0 +
    (if 2 < m && isLeap y then 1 else 0)

/-- Python's `date(y, m, d).toordinal()`: day 1 is 0001-01-01. -/
def toOrdinal (y m d : Nat) : Nat := daysBeforeYear y + daysBeforeMonth y m + d

/-- Python's `date.weekday()` on ordinals: 0 = Monday ... 6 = Sunday. -/
def weekday (o : Nat) : Nat := (o + 6) % 7

/-- Modelled from the spec: the fixed multi-year regional holiday set of
§4.1 (`holidays.US(years=range(2020, 2030))`, line 49 — the data lives in
the external `holidays` package, not under src).  Listed here are the 2026
observed US federal holidays; only membership of 2026-07-03 (Independence
Day observed, a Friday) is used in the theorems. -/
def usHolidays : List Nat :=
  [toOrdinal 2026 1 1, toOrdinal 2026 1 19, toOrdinal 2026 2 16,
   toOrdinal 2026 5 25, toOrdinal 2026 6 19, toOrdinal 2026 7 3,
   toOrdinal 2026 7 4, toOrdinal 2026 9 7, toOrdinal 2026 10 12,
   toOrdinal 2026 11 11, toOrdinal 2026 11 26, toOrdinal 2026 12 25]

/-- `is_business_day` (lines 79-81): weekday below 5 and not a holiday. -/
def is_business_day (o : Nat) : Bool := weekday o < 5 && !(usHolidays.contains o)

/-- Date rewrite used by the weekend copies of `process_dates`
(`saturday_df['Date'] = ...`, lines 267-272): every row's date field is
set to the given day. -/
def LookbackRow.setDate (d : Nat) (r : LookbackRow) : LookbackRow := { r with date := d }

/-- The body of `process_dates` (lines 243-278) on rows with valid dates:
read the dataset date from the first row (`df['Date'].iloc[0]`, line 260);
when its calendar weekday is Friday (`data_date.weekday() == 4`, line
263), append a copy of every row dated to the following Saturday and
another dated to the following Sunday; otherwise return the input
unchanged.  The `file_date` argument of the source is not consulted by
this logic. -/
def process_dates (rows : List LookbackRow) : List LookbackRow :=
  match rows.head? with
  | none => rows
  | some r0 =>
    if weekday r0.date == 4 then
      rows ++ rows.map (LookbackRow.setDate (r0.date + 1))
        ++ rows.map (LookbackRow.setDate (r0.date + 2))
    else rows

/-- One raw Excel row as seen by `transform_data` after `astype(str)`
(line 484): every cell of a numeric column is its string rendering, with
`"nan"` for an empty cell; text cells are strings with `""` for an empty
cell. -/
structure RawRow where
  date : Nat
  fund_code : String
  fund_name : String
  master_class_fund_name : String
  rating : String
  unique_identifier : String
  nasdaq : String
  fund_complex : String
  subcategory : String
  domicile : String
  currency : String
  share_class_assets : String
  portfolio_assets : String
  one_day_yield : String
  one_day_gross_yield : String
  seven_day_yield : String
  seven_day_gross_yield : String
  expense_ratio : String
  wam : String
  wal : String
  transactional_nav : String
  market_nav : String
  daily_liquidity : String
  weekly_liquidity : String
  fees : String
  gates : String
deriving DecidableEq, Repr

/-- `str.replace(',', '')` of line 486: drop every comma. -/
def stripCommas (s : String) : String := String.mk (s.data.filter (fun c => c != ','))

/-- The sentinel replacement of line 488: exact (case-sensitive) match
against `['-', '', 'N/A', 'nan']`. -/
def isNullToken (s : String) : Bool :=
  s == "-" || s == "" || s == "N/A" || s == "nan"

/-- Sign, integer digits, fraction digits and fraction length of a parsed
decimal literal. -/
structure DecParts where
  intPart : Nat
  fracPart : Nat
  fracLen : Nat
  neg : Bool
deriving DecidableEq, Repr

/-- Numeric value of a digit character. -/
def digitVal (c : Char) : Nat := c.toNat - 48

/-- Value of a big-endian digit string. -/
def digitsVal (cs : List Char) : Nat := cs.foldl (fun n c => 10 * n + digitVal c) 0

/-- Decimal scanning for `parseDecimal`: an optional sign followed by
digits with at most one decimal point and at least one digit. -/
def parseUnsignedParts (cs : List Char) (neg : Bool) : Option DecParts :=
  let ip := cs.takeWhile (fun c => c != '.')
  match cs.dropWhile (fun c => c != '.') with
  | [] =>
    if ip ≠ [] && ip.all Char.isDigit then some ⟨digitsVal ip, 0, 0, neg⟩ else none
  | _ :: fp =>
    if (ip ≠ [] || fp ≠ []) && ip.all Char.isDigit && fp.all Char.isDigit then
      some ⟨digitsVal ip, digitsVal fp, fp.length, neg⟩
    else none

/-- Character-level front end of the numeric coercion. -/
def parseParts (s : String) : Option DecParts :=
  match s.data with
  | '-' :: rest => parseUnsignedParts rest true
  | '+' :: rest => parseUnsignedParts rest false
  | cs => parseUnsignedParts cs false

/-- Rational value of parsed decimal parts. -/
def partsToRat (p : DecParts) : ℚ :=
  (if p.neg then -1 else 1) * ((p.intPart : ℚ) + (p.fracPart : ℚ) / 10 ^ p.fracLen)

/-- `pd.to_numeric(..., errors='coerce')` of line 489, modelled on plain
signed decimal literals: any string that is not such a literal coerces to
NaN (`none`), exactly the silent-coercion behaviour of `errors='coerce'`. -/
def parseDecimal (s : String) : Option ℚ := (parseParts s).map partsToRat

/-- The numeric-column pipeline of `transform_data` (lines 481-489):
strip commas, map the four sentinel tokens to NaN, then coerce with
`errors='coerce'`. -/
def transformNumeric (cell : String) : Option ℚ :=
  let noCommas := stripCommas cell
  if isNullToken noCommas then none else parseDecimal noCommas

/-- The text-column cleaning of `transform_data` (lines 468-472):
`fillna('')` then strip when truthy. -/
def transformText (cell : String) : String := if cell == "" then "" else cell.trim

/-- The body of `transform_data` (lines 393-495) at row level: drop rows
whose fund code is the literal `#MULTIVALUE` (lines 417-422), then map
each remaining row to a database row carrying the passed region and date
(lines 407-409), cleaned text fields, and coerced numeric fields.  No
other row is dropped: there is no rejection path.  The `file_date`
tracking column is dropped from the model because the `fund_data` table
of `setup_database` has no such column. -/
def transform_data (rows : List RawRow) (region : String) (dateArg : Nat) : List DbRow :=
  (rows.filter (fun r => r.fund_code != "#MULTIVALUE")).map (fun r =>
    { date := dateArg
      region := region
      fund_code := transformText r.fund_code
      fund_name := transformText r.fund_name
      master_class_fund_name := transformText r.master_class_fund_name
      rating := transformText r.rating
      unique_identifier := transformText r.unique_identifier
      nasdaq := transformText r.nasdaq
      fund_complex := transformText r.fund_complex
      subcategory := transformText r.subcategory
      domicile := transformText r.domicile
      currency := transformText r.currency
      share_class_assets := transformNumeric r.share_class_assets
      portfolio_assets := transformNumeric r.portfolio_assets
      one_day_yield := transformNumeric r.one_day_yield
      one_day_gross_yield := transformNumeric r.one_day_gross_yield
      seven_day_yield := transformNumeric r.seven_day_yield
      seven_day_gross_yield := transformNumeric r.seven_day_gross_yield
      expense_ratio := transformNumeric r.expense_ratio
      wam := transformNumeric r.wam
      wal := transformNumeric r.wal
      transactional_nav := transformText r.transactional_nav
      market_nav := transformText r.market_nav
      daily_liquidity := transformNumeric r.daily_liquidity
      weekly_liquidity := transformNumeric r.weekly_liquidity
      fees := transformText r.fees
      gates := transformText r.gates })

/-- A database row with empty text fields and null numeric fields, used
as the base of the concrete scenarios. -/
def baseDbRow : DbRow :=
  { date := 0, region := "", fund_code := "", fund_name := "",
    master_class_fund_name := "", rating := "", unique_identifier := "",
    nasdaq := "", fund_complex := "", subcategory := "", domicile := "",
    currency := "", share_class_assets := none, portfolio_assets := none,
    one_day_yield := none, one_day_gross_yield := none,
    seven_day_yield := none, seven_day_gross_yield := none,
    expense_ratio := none, wam := none, wal := none,
    transactional_nav := "", market_nav := "", daily_liquidity := none,
    weekly_liquidity := none, fees := "", gates := "" }

/-- A lookback row with empty text fields and NaN numeric cells, used as
the base of the concrete scenarios. -/
def baseLookbackRow : LookbackRow :=
  { date := 0, region := "", fund_code := "", fund_name := "",
    share_class_assets := none, portfolio_assets := none,
    one_day_yield := none, seven_day_yield := none, wam := none,
    wal := none, daily_liquidity := none, weekly_liquidity := none }

/-- Monday 2024-01-15, the working date of the value-change scenarios. -/
def dJan15 : Nat := toOrdinal 2024 1 15

/-- Store of the value-change scenario: one AMRS row for fund `F1` on
2024-01-15 with share-class assets 100 and WAM 10. -/
def store1 : Store :=
  [{ baseDbRow with
      date := dJan15
      region := "AMRS"
      fund_code := "F1"
      share_class_assets := some 100
      wam := some 10 }]

/-- Lookback file of the value-change scenario: the same key with
share-class assets 200 (a 100% change, beyond every default threshold)
and WAM 20 (WAM is not a critical field, so it is never compared). -/
def lb1 : List LookbackRow :=
  [{ baseLookbackRow with
      date := dJan15
      region := "AMRS"
      fund_code := "F1"
      share_class_assets := some 200
      wam := some 20 }]

/-- Validation results of the value-change scenario under the default
configuration (threshold 5.0, the four default critical fields). -/
def plan1 : ValidationResults :=
  validate_against_lookback store1 "AMRS" lb1 defaultCriticalFields 5

/-- C1: the reconciliation plan of the value-change scenario lists only
`share_class_assets` as changed, yet the effective selective update also
overwrites the stored `wam` (10 → 20), a column absent from
`changed_fields`: the second `update_from_lookback` definition (the one
Python dispatches to) patches its whole eight-column map, not the changed
fields. -/
theorem selective_update_overwrites_unlisted_column :
    (plan1.changed_records.map (fun c => c.changed_fields.map (·.field)))
        = [[Field.share_class_assets]]
    ∧ store1.map DbRow.wam = [some 10]
    ∧ (update_from_lookback_selective store1 "AMRS" lb1 plan1.changed_records).1.map DbRow.wam
        = [some 20] := by
  refine ⟨?_, ?_, ?_⟩
  · norm_num [plan1, validate_against_lookback, uniqueDates, uniqueAux,
      countRows, rowsFor, compareDataframes, compareRecord,
      columnMappingReverse_share_class_assets, columnMappingReverse_portfolio_assets,
      columnMappingReverse_one_day_yield, columnMappingReverse_seven_day_yield,
      defaultCriticalFields, compareField, store1,
      lb1, baseDbRow, baseLookbackRow, DbRow.getField, LookbackRow.getField,
      ChangeRecord.changed_fields, qabs, eps]
  · norm_num [store1, baseDbRow]
  · norm_num [plan1, validate_against_lookback, uniqueDates, uniqueAux,
      countRows, rowsFor, compareDataframes, compareRecord,
      columnMappingReverse_share_class_assets, columnMappingReverse_portfolio_assets,
      columnMappingReverse_one_day_yield, columnMappingReverse_seven_day_yield,
      defaultCriticalFields, compareField, store1,
      lb1, baseDbRow, baseLookbackRow, DbRow.getField, LookbackRow.getField,
      ChangeRecord.changed_fields, ChangeRecord.fund_code, ChangeRecord.date,
      update_from_lookback_selective, patchMappedColumns, qabs, eps]

/-- C2: an exception injected into the first `UPDATE` statement of the
value-change scenario is caught by the `except` handler of the effective
`update_from_lookback` (lines 1453-1455), which returns `None` instead of
re-raising; the uncommitted writes are discarded (the caller-visible
store is the original one), but no exception reaches the caller. -/
theorem update_exception_swallowed :
    plan1.changed_records.length = 1
    ∧ update_from_lookback_selective_exc (fun _ => true) store1 "AMRS" lb1
        plan1.changed_records = (Except.ok none, store1) := by
  constructor
  · norm_num [plan1, validate_against_lookback, uniqueDates, uniqueAux,
      countRows, rowsFor, compareDataframes, compareRecord,
      columnMappingReverse_share_class_assets, columnMappingReverse_portfolio_assets,
      columnMappingReverse_one_day_yield, columnMappingReverse_seven_day_yield,
      defaultCriticalFields, compareField, store1,
      lb1, baseDbRow, baseLookbackRow, DbRow.getField, LookbackRow.getField,
      qabs, eps]
  · norm_num [plan1, validate_against_lookback, uniqueDates, uniqueAux,
      countRows, rowsFor, compareDataframes, compareRecord,
      columnMappingReverse_share_class_assets, columnMappingReverse_portfolio_assets,
      columnMappingReverse_one_day_yield, columnMappingReverse_seven_day_yield,
      defaultCriticalFields, compareField, store1,
      lb1, baseDbRow, baseLookbackRow, DbRow.getField, LookbackRow.getField,
      ChangeRecord.fund_code, ChangeRecord.date,
      update_from_lookback_selective_exc, applyExcAux, qabs, eps]

/-- Thursday 2024-01-11, the missing date of the bulk-insert scenario. -/
def dJan11 : Nat := toOrdinal 2024 1 11

/-- Lookback file of the missing-date scenario: one AMRS reference row on
2024-01-11 for fund `F2`, a date with zero stored rows. -/
def lb3 : List LookbackRow :=
  [{ baseLookbackRow with
      date := dJan11
      region := "AMRS"
      fund_code := "F2"
      share_class_assets := some 100 }]

/-- Validation results of the missing-date scenario over an empty store. -/
def plan3 : ValidationResults :=
  validate_against_lookback [] "AMRS" lb3 defaultCriticalFields 5

/-- C3: the validation records 2024-01-11 as a missing date with one
reference row available, yet the effective selective update inserts
nothing: its selective branch (lines 1327-1387) never reads
`missing_dates`, so after apply the store still has zero rows for the
region and date instead of the reference row count. -/
theorem selective_update_skips_missing_dates :
    plan3.missing_dates = [dJan11]
    ∧ plan3.requires_update = true
    ∧ (lb3.filter (fun r => r.date == dJan11)).length = 1
    ∧ update_from_lookback_selective [] "AMRS" lb3 plan3.changed_records = ([], 0)
    ∧ countRows (update_from_lookback_selective [] "AMRS" lb3
        plan3.changed_records).1 "AMRS" dJan11 = 0 := by
  refine ⟨?_, ?_, ?_, ?_, ?_⟩ <;>
    norm_num [plan3, validate_against_lookback, uniqueDates, uniqueAux,
      countRows, rowsFor, compareDataframes, compareRecord,
      defaultCriticalFields, lb3, baseLookbackRow,
      update_from_lookback_selective]

/-- Store of the new-fund scenario: one AMRS row for fund `F0` on
2024-01-15, so the date is not missing. -/
def store4 : Store :=
  [{ baseDbRow with
      date := dJan15
      region := "AMRS"
      fund_code := "F0"
      share_class_assets := some 50 }]

/-- The reference row of the new-fund scenario: fund `F1`, absent from
the store. -/
def lb4row : LookbackRow :=
  { baseLookbackRow with
    date := dJan15
    region := "AMRS"
    fund_code := "F1"
    share_class_assets := some 100 }

/-- Lookback file of the new-fund scenario. -/
def lb4 : List LookbackRow := [lb4row]

/-- First validation of the new-fund scenario. -/
def plan4 : ValidationResults :=
  validate_against_lookback store4 "AMRS" lb4 defaultCriticalFields 5

/-- First application of the effective selective update in the new-fund
scenario. -/
def apply4 : Store × Nat :=
  update_from_lookback_selective store4 "AMRS" lb4 plan4.changed_records

/-- Re-validation against the store left by the first application. -/
def plan4b : ValidationResults :=
  validate_against_lookback apply4.1 "AMRS" lb4 defaultCriticalFields 5

/-- Second application of the effective selective update. -/
def apply4b : Store × Nat :=
  update_from_lookback_selective apply4.1 "AMRS" lb4 plan4b.changed_records

/-- Evaluation of the first classification in the new-fund scenario. -/
theorem plan4_changed_records :
    plan4.changed_records = [ChangeRecord.new_fund "F1" dJan15 lb4row] := by
  norm_num [plan4, validate_against_lookback, uniqueDates, uniqueAux,
    countRows, rowsFor, compareDataframes, compareRecord,
    defaultCriticalFields, compareField, store4, lb4, lb4row, baseDbRow,
    baseLookbackRow, qabs, eps, show ("F0" = "F1") = False by simp,
    show ("F1" = "F0") = False by simp]

theorem apply4_eq : apply4 = (store4, 1) := by
  rw [apply4, plan4_changed_records]
  norm_num [update_from_lookback_selective, ChangeRecord.fund_code,
    ChangeRecord.date, store4, lb4, lb4row, baseDbRow, baseLookbackRow,
    show ("F0" = "F1") = False by simp, show ("F1" = "F0") = False by simp]

theorem plan4b_eq : plan4b = plan4 := by
  rw [plan4b, apply4_eq, plan4]

/-- C4: in the new-fund scenario the first application runs its `UPDATE`
statement against a key that has no stored row (the effective selective
branch never inserts), reports `records_updated = 1` and leaves the store
unchanged; re-classification therefore reports the same new-fund change
again, and the second application also returns `records_updated = 1`
instead of the claimed zero (and the effective result carries no
`records_inserted` count at all). -/
theorem selective_update_not_idempotent :
    plan4.changed_records = [ChangeRecord.new_fund "F1" dJan15 lb4row]
    ∧ apply4 = (store4, 1)
    ∧ plan4b.changed_records = [ChangeRecord.new_fund "F1" dJan15 lb4row]
    ∧ apply4b.2 = 1 := by
  refine ⟨plan4_changed_records, apply4_eq, ?_, ?_⟩
  · rw [plan4b_eq, plan4_changed_records]
  · rw [apply4b, plan4b_eq, plan4_changed_records, apply4_eq]
    norm_num [update_from_lookback_selective, ChangeRecord.fund_code,
      ChangeRecord.date, store4, lb4, lb4row, baseDbRow, baseLookbackRow,
      show ("F0" = "F1") = False by simp, show ("F1" = "F0") = False by simp]

/-- Friday 2026-07-03, Independence Day observed: a calendar Friday that
is not a trading day. -/
def fridayHoliday : Nat := toOrdinal 2026 7 3

/-- A record dated on the non-trading Friday. -/
def rowFridayHoliday : LookbackRow :=
  { baseLookbackRow with
    date := fridayHoliday
    region := "AMRS"
    fund_code := "FH" }

/-- C8 counterexample: 2026-07-03 is a holiday Friday, hence not a
trading day at all (so in particular not the trading day preceding a
weekend), yet `process_dates` expands the record set to three
date-partitions because its test is the bare calendar weekday
(`data_date.weekday() == 4`, line 263). -/
theorem process_dates_expands_nontrading_friday :
    is_business_day fridayHoliday = false
    ∧ weekday fridayHoliday = 4
    ∧ process_dates [rowFridayHoliday] ≠ [rowFridayHoliday]
    ∧ (process_dates [rowFridayHoliday]).length = 3 := by
  refine ⟨by decide, by decide, ?_, ?_⟩
  · decide
  · decide

/-- C8 amended: `process_dates` duplicates every record onto the two
calendar days following the first record's date, concatenated to the
original set, exactly when that date is a calendar Friday (weekday 4),
whether or not it is a trading day; for any other weekday the record set
is returned unchanged. -/
theorem process_dates_friday_exactly (r0 : LookbackRow) (rest : List LookbackRow) :
    (weekday r0.date = 4 →
      process_dates (r0 :: rest)
        = (r0 :: rest) ++ (r0 :: rest).map (LookbackRow.setDate (r0.date + 1))
          ++ (r0 :: rest).map (LookbackRow.setDate (r0.date + 2))
      ∧ (process_dates (r0 :: rest)).length = 3 * (r0 :: rest).length)
    ∧ (weekday r0.date ≠ 4 → process_dates (r0 :: rest) = r0 :: rest) := by
  constructor
  · intro h4
    have hb : (weekday r0.date == 4) = true := by simp [h4]
    constructor
    · simp [process_dates, hb]
    · simp only [process_dates, List.head?_cons, hb, if_true,
        List.length_append, List.length_map, List.length_cons]
      omega
  · intro h
    have hb : (weekday r0.date == 4) = false := by simpa using h
    simp [process_dates, hb]

/-- Friday 2024-01-12, an ordinary trading Friday. -/
def fridayTrading : Nat := toOrdinal 2024 1 12

/-- A record dated on the trading Friday. -/
def rowFridayTrading : LookbackRow :=
  { baseLookbackRow with
    date := fridayTrading
    region := "AMRS"
    fund_code := "FT" }

/-- Closed instantiation of `process_dates_friday_exactly` on the trading
Friday 2024-01-12. -/
theorem process_dates_friday_exactly_witness :
    process_dates [rowFridayTrading]
      = [rowFridayTrading]
        ++ [rowFridayTrading].map (LookbackRow.setDate (rowFridayTrading.date + 1))
        ++ [rowFridayTrading].map (LookbackRow.setDate (rowFridayTrading.date + 2))
    ∧ (process_dates [rowFridayTrading]).length = 3 * [rowFridayTrading].length :=
  (process_dates_friday_exactly rowFridayTrading []).1 (by decide)

/-- A raw row with empty cells throughout. -/
def baseRawRow : RawRow :=
  { date := 0, fund_code := "", fund_name := "", master_class_fund_name := "",
    rating := "", unique_identifier := "", nasdaq := "", fund_complex := "",
    subcategory := "", domicile := "", currency := "", share_class_assets := "",
    portfolio_assets := "", one_day_yield := "", one_day_gross_yield := "",
    seven_day_yield := "", seven_day_gross_yield := "", expense_ratio := "",
    wam := "", wal := "", transactional_nav := "", market_nav := "",
    daily_liquidity := "", weekly_liquidity := "", fees := "", gates := "" }

/-- A raw row whose share-class-assets cell holds the non-numeric,
non-sentinel text `abc`. -/
def rawAbc : RawRow :=
  { baseRawRow with
    fund_code := "FX"
    share_class_assets := "abc" }

/-- C9 counterexample: the non-numeric cell `abc` is neither a sentinel
token nor a parse failure that rejects the record: `errors='coerce'`
(line 489) silently turns it into null and `transform_data` keeps the
row. -/
theorem transform_keeps_unparseable_numeric :
    transformNumeric "abc" = none
    ∧ (transform_data [rawAbc] "AMRS" dJan15).length = 1
    ∧ (transform_data [rawAbc] "AMRS" dJan15).map DbRow.share_class_assets
        = [none] := by
  refine ⟨by decide, by decide, by decide⟩

/-- C9 amended: `transform_data` rejects no row on numeric grounds (its
row count is the input count minus only the `#MULTIVALUE` filter);
thousands separators are stripped and the value coerced to a rational;
the sentinel tokens and their case variants map to null (the variants
through coercion failure rather than the exact-match replace list); and
every other non-numeric value is silently coerced to null as well, with
the record retained. -/
theorem transform_numeric_coercion (rows : List RawRow) (region : String)
    (dateArg : Nat) :
    (transform_data rows region dateArg).length
      = (rows.filter (fun r => r.fund_code != "#MULTIVALUE")).length
    ∧ transformNumeric "1,234.5" = some (2469 / 2)
    ∧ transformNumeric "-" = none ∧ transformNumeric "" = none
    ∧ transformNumeric "N/A" = none ∧ transformNumeric "n/a" = none
    ∧ transformNumeric "N/a" = none ∧ transformNumeric "nan" = none
    ∧ transformNumeric "NaN" = none ∧ transformNumeric "NAN" = none
    ∧ transformNumeric "abc" = none := by
  refine ⟨by simp [transform_data], ?_, by decide, by decide, by decide,
    by decide, by decide, by decide, by decide, by decide, by decide⟩
  have h1 : stripCommas "1,234.5" = "1234.5" := by decide
  have h2 : isNullToken "1234.5" = false := by decide
  have h3 : parseParts "1234.5" = some ⟨1234, 5, 1, false⟩ := by decide
  simp only [transformNumeric, h1, h2, Bool.false_eq_true, if_false,
    parseDecimal, h3, Option.map_some, Option.some.injEq]
  norm_num [partsToRat]

/-- A lookback file holding two rows with the same fund code and date:
reference files can contain duplicate keys (the `#MULTIVALUE` sentinel
rows are one real instance), and the validation path never deduplicates
before comparing. -/
def lbDup : List LookbackRow :=
  [{ baseLookbackRow with
      date := dJan15
      region := "AMRS"
      fund_code := "F1"
      share_class_assets := some 200 },
   { baseLookbackRow with
      date := dJan15
      region := "AMRS"
      fund_code := "F1"
      share_class_assets := some 300 }]

/-- Validation of the duplicate-key lookback file against the
value-change store. -/
def planDup : ValidationResults :=
  validate_against_lookback store1 "AMRS" lbDup defaultCriticalFields 5

/-- C10 counterexample: both duplicate rows differ materially from the
stored row, and `_compare_dataframes` iterates over lookback rows, so the
plan carries two change descriptors with the identical
`(fund_code, date)` key. -/
theorem planner_duplicate_keys_counterexample :
    planDup.changed_records.map (fun c => (c.fund_code, c.date))
        = [("F1", dJan15), ("F1", dJan15)]
    ∧ ¬ (planDup.changed_records.map (fun c => (c.fund_code, c.date))).Nodup := by
  have h : planDup.changed_records.map (fun c => (c.fund_code, c.date))
      = [("F1", dJan15), ("F1", dJan15)] := by
    norm_num [planDup, validate_against_lookback, uniqueDates, uniqueAux,
      countRows, rowsFor, compareDataframes, compareRecord,
      columnMappingReverse_share_class_assets, columnMappingReverse_portfolio_assets,
      columnMappingReverse_one_day_yield, columnMappingReverse_seven_day_yield,
      defaultCriticalFields, compareField, store1, lbDup, baseDbRow,
      baseLookbackRow, DbRow.getField, LookbackRow.getField,
      ChangeRecord.fund_code, ChangeRecord.date, qabs, eps]
  exact ⟨h, by rw [h]; simp⟩

/-- Unfolding equation for `compareDataframes` on a cons cell. -/
theorem compareDataframes_cons (db_df : List DbRow) (lbRow : LookbackRow)
    (rest : List LookbackRow) (cf : List String) (thr : ℚ) :
    compareDataframes db_df (lbRow :: rest) cf thr =
      match db_df.find? (fun r => r.fund_code == lbRow.fund_code) with
      | none => .new_fund lbRow.fund_code lbRow.date lbRow
          :: compareDataframes db_df rest cf thr
      | some dbRec =>
        let cfs := compareRecord dbRec lbRow cf thr
        if cfs.isEmpty then compareDataframes db_df rest cf thr
        else .value_change lbRow.fund_code dbRec.date cfs lbRow
          :: compareDataframes db_df rest cf thr := rfl

/-- Each lookback row contributes at most one descriptor, carrying its
own fund code: the emitted code list is a sublist of the row code list. -/
theorem compareDataframes_codes_sublist (db_df : List DbRow)
    (cf : List String) (thr : ℚ) (lbRows : List LookbackRow) :
    ((compareDataframes db_df lbRows cf thr).map ChangeRecord.fund_code).Sublist
      (lbRows.map LookbackRow.fund_code) := by
  induction lbRows with
  | nil => simp [compareDataframes]
  | cons lbRow rest ih =>
    rw [compareDataframes_cons]
    cases hf : db_df.find? (fun r => r.fund_code == lbRow.fund_code) with
    | none =>
      simpa [ChangeRecord.fund_code] using ih.cons₂ lbRow.fund_code
    | some dbRec =>
      simp only []
      split
      · exact ih.cons lbRow.fund_code
      · simpa [ChangeRecord.fund_code] using ih.cons₂ lbRow.fund_code

/-- Every descriptor of a comparison over single-date slices carries that
date: `new_fund` descriptors take it from the lookback row, and
`value_change` descriptors from the stored row found for the key. -/
theorem compareDataframes_date_eq (db_df : List DbRow) (cf : List String)
    (thr : ℚ) (lbRows : List LookbackRow) (d : Nat)
    (hlb : ∀ r ∈ lbRows, r.date = d) (hdb : ∀ r ∈ db_df, r.date = d) :
    ∀ c ∈ compareDataframes db_df lbRows cf thr, c.date = d := by
  induction lbRows with
  | nil => simp [compareDataframes]
  | cons lbRow rest ih =>
    have hrest : ∀ r ∈ rest, r.date = d := fun r hr =>
      hlb r (List.mem_cons_of_mem _ hr)
    intro c hc
    rw [compareDataframes_cons] at hc
    cases hf : db_df.find? (fun r => r.fund_code == lbRow.fund_code) with
    | none =>
      rw [hf] at hc
      rcases List.mem_cons.mp hc with rfl | h2
      · exact hlb lbRow (List.mem_cons_self _ _)
      · exact ih hrest c h2
    | some dbRec =>
      rw [hf] at hc
      simp only [] at hc
      by_cases he : (compareRecord dbRec lbRow cf thr).isEmpty
      · rw [if_pos he] at hc
        exact ih hrest c hc
      · rw [if_neg he] at hc
        rcases List.mem_cons.mp hc with rfl | h2
        · exact hdb dbRec (List.mem_of_find?_eq_some hf)
        · exact ih hrest c h2

/-- Elements produced by `uniqueAux` avoid the seen accumulator. -/
theorem uniqueAux_not_mem_seen (l : List Nat) :
    ∀ seen : List Nat, ∀ x ∈ uniqueAux seen l, x ∉ seen := by
  induction l with
  | nil => intro seen x hx; simp [uniqueAux] at hx
  | cons d rest ih =>
    intro seen x hx
    rw [uniqueAux] at hx
    by_cases hd : d ∈ seen
    · rw [if_pos hd] at hx
      exact ih seen x hx
    · rw [if_neg hd] at hx
      rcases List.mem_cons.mp hx with rfl | h2
      · exact hd
      · intro hxs
        exact ih (d :: seen) x h2 (List.mem_cons_of_mem d hxs)

/-- First-occurrence deduplication yields a duplicate-free list. -/
theorem uniqueAux_nodup (l : List Nat) :
    ∀ seen : List Nat, (uniqueAux seen l).Nodup := by
  induction l with
  | nil => intro seen; simp [uniqueAux]
  | cons d rest ih =>
    intro seen
    rw [uniqueAux]
    by_cases hd : d ∈ seen
    · rw [if_pos hd]
      exact ih seen
    · rw [if_neg hd]
      refine List.nodup_cons.mpr ⟨?_, ih (d :: seen)⟩
      intro hmem
      exact uniqueAux_not_mem_seen rest (d :: seen) d hmem (List.mem_cons_self d seen)

/-- C10 amended: provided the region-filtered reference rows of each date
carry pairwise-distinct fund codes (true whenever the reference dataset
has at most one row per fund and date), the planner emits no two change
descriptors with the same `(fund_code, date)` key. -/
theorem planner_no_duplicate_keys (store : Store) (region : String)
    (lookback_df : List LookbackRow) (criticalFields : List String)
    (thresholdPct : ℚ)
    (hnodup : ∀ d : Nat, (((lookback_df.filter (fun r => r.date == d)).filter
        (fun r => r.region == region)).map LookbackRow.fund_code).Nodup) :
    ((validate_against_lookback store region lookback_df criticalFields
        thresholdPct).changed_records.map
      (fun c => (c.fund_code, c.date))).Nodup := by
  have hdate : ∀ d : Nat, ∀ c ∈ compareDataframes (rowsFor store region d)
      ((lookback_df.filter (fun r => r.date == d)).filter
        (fun r => r.region == region)) criticalFields thresholdPct,
      c.date = d := by
    intro d
    apply compareDataframes_date_eq
    · intro r hr
      exact eq_of_beq (List.mem_filter.mp (List.mem_filter.mp hr).1).2
    · intro r hr
      exact eq_of_beq (Bool.and_eq_true .. |>.mp (List.mem_filter.mp hr).2).1
  simp only [validate_against_lookback]
  rw [List.map_flatMap, List.nodup_flatMap]
  constructor
  · intro d hd
    have hkeys : (compareDataframes (rowsFor store region d)
        ((lookback_df.filter (fun r => r.date == d)).filter
          (fun r => r.region == region)) criticalFields thresholdPct).map
            (fun c => (c.fund_code, c.date))
        = ((compareDataframes (rowsFor store region d)
            ((lookback_df.filter (fun r => r.date == d)).filter
              (fun r => r.region == region)) criticalFields thresholdPct).map
                ChangeRecord.fund_code).map (fun s => (s, d)) := by
      rw [List.map_map]
      exact List.map_congr_left (fun c hc => by rw [Function.comp_apply, hdate d c hc])
    rw [hkeys]
    have hsub := compareDataframes_codes_sublist (rowsFor store region d)
      criticalFields thresholdPct
      ((lookback_df.filter (fun r => r.date == d)).filter
        (fun r => r.region == region))
    exact (hsub.nodup (hnodup d)).map (fun a b h => by simpa using h)
  · have hnd : ((uniqueDates lookback_df).filter
        (fun d => !((uniqueDates lookback_df).filter
          (fun e => countRows store region e == 0)).contains d)).Nodup :=
      (uniqueAux_nodup _ _).filter _
    refine hnd.imp ?_
    intro d1 d2 hne x hx1 hx2
    obtain ⟨c1, hc1, hk1⟩ := List.mem_map.mp hx1
    obtain ⟨c2, hc2, hk2⟩ := List.mem_map.mp hx2
    have h1 := hdate d1 c1 hc1
    have h2 := hdate d2 c2 hc2
    apply hne
    have : c1.date = c2.date := by
      have := hk1.trans hk2.symm
      simpa using congrArg Prod.snd this
    rw [← h1, ← h2, this]

/-- Closed instantiation of `planner_no_duplicate_keys` on the
value-change scenario, whose single reference row trivially has distinct
fund codes per date. -/
theorem planner_no_duplicate_keys_witness :
    ((validate_against_lookback store1 "AMRS" lb1 defaultCriticalFields
        5).changed_records.map (fun c => (c.fund_code, c.date))).Nodup := by
  apply planner_no_duplicate_keys
  intro d
  have hsub : List.Sublist ((lb1.filter (fun r => r.date == d)).filter
      (fun r => r.region == "AMRS")) lb1 :=
    (List.filter_sublist _).trans (List.filter_sublist _)
  exact (hsub.map LookbackRow.fund_code).nodup (by simp [lb1])

end FundETL
